import Mathlib

/-!
Shallow embedding of the DnDCharacterTool repository (Django/Python) in Lean 4,
covering the character data model (characters/models.py, game_content/models.py),
the character calculation service (characters/services/calculation_service.py)
and the dice rolling service (characters/services/dice_service.py).

Conventions used throughout:
  a Python int is an unbounded mathematical integer, so it is modelled as Int
  (or Nat for Django PositiveIntegerField columns); Python floor division a // b
  is Int.fdiv; Decimal/float weights are modelled as exact rationals; a nullable
  column or attribute is an Option; randomness is modelled by passing the values
  that random.randint would have produced as explicit oracle arguments, with the
  range contract 1 <= v <= sides stated as a hypothesis; a Python function that
  can raise ValueError returns Except String.
-/

/-- Python truthiness-based default for an optional non-negative integer column:
models the expression x or d, where both None and 0 are falsy. -/
def pyOrNat (x : Option Nat) (d : Nat) : Nat :=
  match x with
  | none => d
  | some 0 => d
  | some n => n

/-- Lower-cased character data of a string, modelling str.lower() on the
underlying characters (used for the Django icontains lookup). -/
def lowerData (s : String) : List Char :=
  s.data.map Char.toLower

/-- Case-insensitive substring test, modelling the Django filter
equipment__name__icontains = pat (pat given already lower-case). -/
def icontains (pat : String) (s : String) : Bool :=
  decide (pat.data <:+: lowerData s)

/-- game_content.models.Species: only the name field is read by the
calculation service. -/
structure Species where
  name : String

/-- game_content.models.DnDClass (field dnd_class on Character): the fields the
calculation service reads.  hit_die is a PositiveIntegerField, and
weapon_proficiencies a JSON list of strings. -/
structure DnDClassData where
  name : String
  hit_die : Nat
  weapon_proficiencies : List String

/-- game_content.models.Weapon sub-row of an Equipment row (multi-table
inheritance): the field the calculation service reads. -/
structure WeaponData where
  weapon_category : String

/-- game_content.models.Armor sub-row of an Equipment row.  base_ac is a
PositiveIntegerField; dex_bonus_limit is a nullable PositiveIntegerField. -/
structure ArmorData where
  armor_type : String
  base_ac : Nat
  dex_bonus_limit : Option Nat

/-- game_content.models.Equipment base row, with its optional weapon/armor
sub-rows (the hasattr weapon check / equipment.armor).  weight is a
DecimalField (pounds), modelled exactly as a rational; properties is a JSON
list of strings shared by the weapon sub-row through inheritance. -/
structure EquipmentItem where
  name : String
  weight : ℚ
  properties : List String
  weapon : Option WeaponData
  armor : Option ArmorData

/-- characters.models.CharacterEquipment: one inventory row. -/
structure CharacterEquipment where
  equipment : EquipmentItem
  quantity : Nat
  equipped : Bool

/-- characters.models.CharacterAbilities: the six ability scores, each a
PositiveIntegerField with default 10. -/
structure CharacterAbilities where
  strength_score : Nat
  dexterity_score : Nat
  constitution_score : Nat
  intelligence_score : Nat
  wisdom_score : Nat
  charisma_score : Nat

/-- characters.models.Character, restricted to the fields and relations the
claims read.  dnd_class_ref models the dnd_class foreign key; abilities is an
Option because the hasattr abilities check can be False; equipment is the
related CharacterEquipment rows in queryset order; feats is the list of related
feat names (CharacterFeat -> Feat.name).  proficiency_bonus is the stored
column, modelled as Int because Python lets a caller assign any integer to the
attribute before save(). -/
structure Character where
  level : Nat
  proficiency_bonus : Int
  dnd_class_ref : Option DnDClassData
  species : Option Species
  abilities : Option CharacterAbilities
  equipment : List CharacterEquipment
  feats : List String

/-- CharacterCalculationService.calculate_ability_modifier:
(score - 10) // 2 with Python floor division. -/
def calculate_ability_modifier (score : Int) : Int :=
  Int.fdiv (score - 10) 2

/-- CharacterCalculationService.calculate_proficiency_bonus:
2 + ((level - 1) // 4) with Python floor division. -/
def calculate_proficiency_bonus (level : Int) : Int :=
  2 + Int.fdiv (level - 1) 4

/-- characters.models.CharacterAbilities.modifier: the same formula as
calculate_ability_modifier, defined on the model. -/
def CharacterAbilities.modifier (score : Int) : Int :=
  Int.fdiv (score - 10) 2

/-- characters.models.Character.calculate_proficiency_bonus. -/
def Character.calculate_proficiency_bonus_m (c : Character) : Int :=
  2 + Int.fdiv ((c.level : Int) - 1) 4

/-- characters.models.Character.save: assigns the recomputed proficiency bonus
to the proficiency_bonus field and then persists the row; the returned value is
the persisted state. -/
def Character.save (c : Character) : Character :=
  { c with proficiency_bonus := c.calculate_proficiency_bonus_m }

/-- The species-bonus test hard-coded in calculate_max_hp:
character.species is set and its name equals Dwarf. -/
def Character.isDwarf (c : Character) : Bool :=
  match c.species with
  | some sp => sp.name == "Dwarf"
  | none => false

/-- CharacterCalculationService.calculate_max_hp. -/
def calculate_max_hp (c : Character) : Int :=
  match c.dnd_class_ref, c.abilities with
  | some cls, some ab =>
      let con_modifier := calculate_ability_modifier ab.constitution_score
      let hit_die : Int := cls.hit_die
      let level : Int := c.level
      let base :=
        if level = 1 then
          let m := hit_die + con_modifier
          if c.isDwarf then m + level else m
        else
          let level_1_hp := hit_die + con_modifier
          let average_hit_die := Int.fdiv hit_die 2 + 1
          let additional_levels := level - 1
          let m := level_1_hp + additional_levels * (average_hit_die + con_modifier)
          if c.isDwarf then m + level else m
      max 1 base
  | _, _ => 0

/-- CharacterCalculationService.calculate_armor_class. -/
def calculate_armor_class (c : Character) : Int :=
  match c.abilities with
  | none => 10
  | some ab =>
      let dex_modifier := calculate_ability_modifier ab.dexterity_score
      let base_ac : Int := 10 + dex_modifier
      let equipped_armor := c.equipment.find? fun ce =>
        ce.equipped && ce.equipment.armor.isSome
      let base_ac :=
        match equipped_armor with
        | some ce =>
            match ce.equipment.armor with
            | some armor =>
                let b : Int := armor.base_ac
                if armor.armor_type == "light" then b + dex_modifier
                else if armor.armor_type == "medium" then
                  b + min dex_modifier ((pyOrNat armor.dex_bonus_limit 2 : Nat) : Int)
                else b
            | none => base_ac
        | none => base_ac
      let has_shield := c.equipment.any fun ce =>
        ce.equipped && icontains "shield" ce.equipment.name
      if has_shield then base_ac + 2 else base_ac

/-- Result type of calculate_attack_bonus (the returned melee/ranged dict). -/
structure AttackBonus where
  melee : Int
  ranged : Int
deriving DecidableEq

/-- CharacterCalculationService.calculate_attack_bonus. -/
def calculate_attack_bonus (c : Character) (weapon_name : String) : AttackBonus :=
  match c.abilities with
  | none => ⟨0, 0⟩
  | some ab =>
      let str_modifier := calculate_ability_modifier ab.strength_score
      let dex_modifier := calculate_ability_modifier ab.dexterity_score
      let proficiency_bonus := calculate_proficiency_bonus c.level
      let found := c.equipment.find? fun ce => ce.equipment.name == weapon_name
      let weaponCase : Option AttackBonus :=
        match found with
        | some weapon_equipment =>
            match weapon_equipment.equipment.weapon with
            | some weapon =>
                let weapon_proficiencies :=
                  match c.dnd_class_ref with
                  | some cls => cls.weapon_proficiencies
                  | none => []
                let is_proficient :=
                  weapon_proficiencies.contains weapon.weapon_category ||
                  weapon_proficiencies.contains "all"
                let prof_bonus := if is_proficient then proficiency_bonus else 0
                let melee_bonus := str_modifier + prof_bonus
                let ranged_bonus := dex_modifier + prof_bonus
                let melee_bonus :=
                  if weapon_equipment.equipment.properties.contains "finesse" then
                    max str_modifier dex_modifier + prof_bonus
                  else melee_bonus
                let ranged_bonus :=
                  if c.feats.contains "Archery" then ranged_bonus + 2 else ranged_bonus
                some ⟨melee_bonus, ranged_bonus⟩
            | none => none
        | none => none
      match weaponCase with
      | some r => r
      | none =>
          ⟨str_modifier + (if c.dnd_class_ref.isSome then proficiency_bonus else 0),
           dex_modifier⟩

/-- Result type of calculate_carrying_capacity (pounds, exact rationals). -/
structure CarryingCapacity where
  normal : ℚ
  push_drag_lift : ℚ
  encumbered : ℚ
  heavily_encumbered : ℚ

/-- CharacterCalculationService.calculate_carrying_capacity. -/
def calculate_carrying_capacity (c : Character) : CarryingCapacity :=
  match c.abilities with
  | none => ⟨0, 0, 0, 0⟩
  | some ab =>
      let normal_capacity : ℚ := (ab.strength_score : ℚ) * 15
      ⟨normal_capacity, normal_capacity * 2, normal_capacity / 3,
       normal_capacity * 2 / 3⟩

/-- CharacterCalculationService.calculate_current_encumbrance: sum over all
inventory rows of weight * quantity. -/
def calculate_current_encumbrance (c : Character) : ℚ :=
  (c.equipment.map fun ce => ce.equipment.weight * (ce.quantity : ℚ)).sum

/-- CharacterCalculationService.get_encumbrance_status. -/
def get_encumbrance_status (c : Character) : String :=
  let current_weight := calculate_current_encumbrance c
  let capacity := calculate_carrying_capacity c
  if current_weight ≤ capacity.encumbered then "normal"
  else if current_weight ≤ capacity.heavily_encumbered then "encumbered"
  else if current_weight ≤ capacity.normal then "heavily_encumbered"
  else "overloaded"

/-- Result dataclass DiceRoll of the dice service. -/
structure DiceRoll where
  dice_count : Int
  dice_size : Int
  modifier : Int
  individual_rolls : List Int
  total : Int
  description : String

/-- Python sorted(l) for a list of ints: the unique ascending reordering. -/
def pySortAsc (l : List Int) : List Int :=
  l.insertionSort (· ≤ ·)

/-- Python sorted(l, reverse=True) for a list of ints: the unique descending
reordering. -/
def pySortDesc (l : List Int) : List Int :=
  l.insertionSort (· ≥ ·)

/-- The description string assembled by roll_dice. -/
def mkDescription (count sides modifier drop_lowest drop_highest : Int) : String :=
  let parts := [toString count ++ "d" ++ toString sides]
  let parts := if drop_lowest > 0 then parts ++ ["drop lowest " ++ toString drop_lowest] else parts
  let parts := if drop_highest > 0 then parts ++ ["drop highest " ++ toString drop_highest] else parts
  let parts :=
    if modifier > 0 then parts ++ ["+" ++ toString modifier]
    else if modifier < 0 then parts ++ [toString modifier] else parts
  String.intercalate " " parts

/-- The drop-rule step of roll_dice: when drop_lowest > 0, sort ascending and
drop that many from the front; then, when drop_highest > 0, sort what remains
descending and drop that many from the front. -/
def keptRolls (drop_lowest drop_highest : Int) (rolls : List Int) : List Int :=
  let rolls1 := if drop_lowest > 0 then (pySortAsc rolls).drop drop_lowest.toNat else rolls
  if drop_highest > 0 then (pySortDesc rolls1).drop drop_highest.toNat else rolls1

/-- DiceRollerService.roll_dice.  The rolls argument is the sequence of values
random.randint(1, sides) would have produced, one per die, in roll order; the
range contract 1 <= r <= sides is a hypothesis of the theorems.  ValueError is
modelled as Except.error, raised before any die is consumed. -/
def rollDice (count sides modifier drop_lowest drop_highest : Int)
    (rolls : List Int) : Except String DiceRoll :=
  if count < 1 then .error "Must roll at least 1 die"
  else if sides < 1 then .error "Die must have at least 1 side"
  else if drop_lowest + drop_highest ≥ count then .error "Cannot drop more dice than rolled"
  else
    let original_rolls := rolls
    let dice_total := (keptRolls drop_lowest drop_highest rolls).sum
    let final_total := dice_total + modifier
    .ok { dice_count := count, dice_size := sides, modifier := modifier
          individual_rolls := original_rolls, total := final_total
          description := mkDescription count sides modifier drop_lowest drop_highest }

/-- DiceRollerService.roll_ability_score: roll_dice(4, 6, drop_lowest=1). -/
def roll_ability_score (rolls : List Int) : Except String DiceRoll :=
  rollDice 4 6 0 1 0 rolls

/-- DiceRollerService.roll_die with its own sides >= 1 validation; value is
the oracle result of random.randint(1, sides). -/
def roll_die (sides : Int) (value : Int) : Except String Int :=
  if sides < 1 then .error "Die must have at least 1 side" else .ok value

/-- Result dataclass AdvantageRoll of the dice service. -/
structure AdvantageRoll where
  roll1 : Int
  roll2 : Int
  result : Int
  advantage_type : String
  description : String

/-- DiceRollerService.roll_with_advantage; die1/die2 are the oracle values of
the first and (when rolled at all) second random.randint(1, sides) call. -/
def roll_with_advantage (sides modifier : Int) (advantage_type : String)
    (die1 die2 : Int) : Except String AdvantageRoll := do
  let roll1 ← roll_die sides die1
  let roll2 ← if advantage_type == "normal" then pure roll1 else roll_die sides die2
  let result :=
    if advantage_type == "advantage" then max roll1 roll2 + modifier
    else if advantage_type == "disadvantage" then min roll1 roll2 + modifier
    else roll1 + modifier
  let description :=
    if advantage_type == "advantage" then "1d" ++ toString sides ++ " with advantage"
    else if advantage_type == "disadvantage" then "1d" ++ toString sides ++ " with disadvantage"
    else "1d" ++ toString sides
  let description :=
    if modifier > 0 then description ++ " +" ++ toString modifier
    else if modifier < 0 then description ++ " " ++ toString modifier
    else description
  pure { roll1 := roll1, roll2 := roll2, result := result
         advantage_type := advantage_type, description := description }

/-- DiceRollerService.roll_hit_points; rolls holds the per-extra-level single
die results, one entry per iteration of the level-up loop. -/
def roll_hit_points (hit_die con_modifier level : Int)
    (rolls : List Int) : Except String Int :=
  if level = 1 then .ok (hit_die + con_modifier)
  else
    rolls.foldlM
      (fun total_hp r => do
        let roll ← rollDice 1 hit_die con_modifier 0 0 [r]
        pure (total_hp + max 1 roll.total))
      (hit_die + con_modifier)

instance : IsTotal Int (· ≥ ·) := ⟨fun a b => le_total b a⟩

instance : IsTrans Int (· ≥ ·) := ⟨fun _ _ _ h h2 => le_trans h2 h⟩

/-- Fighter-like class with a d10 hit die, used as a concrete witness input. -/
def exClassD10 : DnDClassData :=
  { name := "Fighter", hit_die := 10, weapon_proficiencies := ["simple", "martial"] }

/-- Ability block with CON 14 (modifier +2), used as a concrete witness input. -/
def exAbilC3 : CharacterAbilities :=
  { strength_score := 10, dexterity_score := 10, constitution_score := 14
    intelligence_score := 10, wisdom_score := 10, charisma_score := 10 }

/-- Level-1 d10/CON-14 character, used as a concrete witness input. -/
def exCharC3L1 : Character :=
  { level := 1, proficiency_bonus := 2, dnd_class_ref := some exClassD10
    species := none, abilities := some exAbilC3, equipment := [], feats := [] }

/-- The same character at level 5. -/
def exCharC3L5 : Character := { exCharC3L1 with level := 5 }

/-- Ability block with all six scores 10 (every modifier 0), used as a concrete
input for claim C1. -/
def exAbilC1 : CharacterAbilities :=
  { strength_score := 10, dexterity_score := 10, constitution_score := 10
    intelligence_score := 10, wisdom_score := 10, charisma_score := 10 }

/-- Class whose weapon-proficiency list holds the literal weapon name
Longsword but not the category martial and not the wildcard all. -/
def exClassC1 : DnDClassData :=
  { name := "Duelist", hit_die := 8, weapon_proficiencies := ["Longsword"] }

/-- A martial weapon named Longsword. -/
def exLongsword : EquipmentItem :=
  { name := "Longsword", weight := 3, properties := []
    weapon := some { weapon_category := "martial" }, armor := none }

/-- Level-1 character owning the Longsword, with the C1 class and all-10
ability scores. -/
def exCharC1 : Character :=
  { level := 1, proficiency_bonus := 2, dnd_class_ref := some exClassC1
    species := none, abilities := some exAbilC1
    equipment := [{ equipment := exLongsword, quantity := 1, equipped := true }]
    feats := [] }

/-- Ability block with DEX 16 (modifier +3), used as a concrete input for
claim C4. -/
def exAbilC4 : CharacterAbilities :=
  { strength_score := 10, dexterity_score := 16, constitution_score := 10
    intelligence_score := 10, wisdom_score := 10, charisma_score := 10 }

/-- Medium armor whose configured dex_bonus_limit is 0 (a set value, not
unset). -/
def exArmorC4 : ArmorData :=
  { armor_type := "medium", base_ac := 14, dex_bonus_limit := some 0 }

/-- Character wearing the limit-0 medium armor, DEX modifier +3, no shield. -/
def exCharC4 : Character :=
  { level := 1, proficiency_bonus := 2, dnd_class_ref := none
    species := none, abilities := some exAbilC4
    equipment := [{ equipment := { name := "Chain Shirt", weight := 20, properties := []
                                   weapon := none, armor := some exArmorC4 }
                    quantity := 1, equipped := true }]
    feats := [] }

/-- Light armor with base AC 11, used as a concrete input for the C4
witness. -/
def exArmorC4w : ArmorData :=
  { armor_type := "light", base_ac := 11, dex_bonus_limit := none }

/-- Character wearing the light armor plus an equipped item whose name
contains shield. -/
def exCharC4w : Character :=
  { level := 1, proficiency_bonus := 2, dnd_class_ref := none
    species := none, abilities := some exAbilC4
    equipment := [{ equipment := { name := "Leather Armor", weight := 10, properties := []
                                   weapon := none, armor := some exArmorC4w }
                    quantity := 1, equipped := true },
                  { equipment := { name := "Shield", weight := 6, properties := []
                                   weapon := none, armor := none }
                    quantity := 1, equipped := true }]
    feats := [] }

/-- Ability block with STR 10 used as a concrete input for claim C5. -/
def exAbilC5 : CharacterAbilities :=
  { strength_score := 10, dexterity_score := 10, constitution_score := 10
    intelligence_score := 10, wisdom_score := 10, charisma_score := 10 }

/-- STR-10 character carrying exactly 50 pounds, the encumbered threshold
(10 * 15 / 3 = 50). -/
def exCharC5 : Character :=
  { level := 1, proficiency_bonus := 2, dnd_class_ref := none
    species := none, abilities := some exAbilC5
    equipment := [{ equipment := { name := "Backpack", weight := 50, properties := []
                                   weapon := none, armor := none }
                    quantity := 1, equipped := true }]
    feats := [] }

/-- Floor division by a positive natural number agrees with the mathematical
floor of the exact rational quotient. -/
theorem fdiv_eq_rat_floor (a b : Int) (hb : 0 < b) :
    Int.fdiv a b = ⌊((a : ℚ)) / (b : ℚ)⌋ := by
  obtain ⟨d, rfl⟩ : ∃ d : ℕ, b = (d : Int) := ⟨b.toNat, (Int.toNat_of_nonneg hb.le).symm⟩
  rw [Int.fdiv_eq_ediv _ hb.le]
  rw [show (((d : Int)) : ℚ) = (d : ℚ) by push_cast; ring]
  exact (Rat.floor_intCast_div_natCast a d).symm

/-- Sorting ascending is a permutation of the input. -/
theorem sortAsc_perm (l : List Int) : l.Perm (pySortAsc l) :=
  (List.perm_insertionSort _ l).symm

/-- Sorting descending is a permutation of the input. -/
theorem sortDesc_perm (l : List Int) : l.Perm (pySortDesc l) :=
  (List.perm_insertionSort _ l).symm

/-- Sorting ascending preserves length. -/
theorem sortAsc_length (l : List Int) : (pySortAsc l).length = l.length :=
  (List.perm_insertionSort _ l).length_eq

/-- Sorting descending preserves length. -/
theorem sortDesc_length (l : List Int) : (pySortDesc l).length = l.length :=
  (List.perm_insertionSort _ l).length_eq

/-- In the ascending sort, every dropped prefix element is at most every kept
suffix element. -/
theorem sortAsc_take_le_drop (l : List Int) (n : Nat) :
    ∀ a ∈ (pySortAsc l).take n, ∀ b ∈ (pySortAsc l).drop n, a ≤ b := by
  have hs : List.Pairwise (· ≤ ·) ((pySortAsc l).take n ++ (pySortAsc l).drop n) := by
    rw [List.take_append_drop]
    exact List.sorted_insertionSort _ l
  exact (List.pairwise_append.mp hs).2.2

/-- In the descending sort, every kept suffix element is at most every dropped
prefix element. -/
theorem sortDesc_drop_le_take (l : List Int) (n : Nat) :
    ∀ b ∈ (pySortDesc l).drop n, ∀ cc ∈ (pySortDesc l).take n, b ≤ cc := by
  have hs : List.Pairwise (· ≥ ·) ((pySortDesc l).take n ++ (pySortDesc l).drop n) := by
    rw [List.take_append_drop]
    exact List.sorted_insertionSort _ l
  intro b hb cc hcc
  exact (List.pairwise_append.mp hs).2.2 cc hcc b hb

/-- The level-up loop of roll_hit_points adds max(1, die + CON modifier) per
consumed oracle die. -/
theorem roll_hit_points_fold (hit_die con_modifier : Int) (hhd : ¬hit_die < 1) :
    ∀ (rolls : List Int) (acc : Int),
      rolls.foldlM
        (fun total_hp r => do
          let roll ← rollDice 1 hit_die con_modifier 0 0 [r]
          pure (total_hp + max 1 roll.total))
        acc =
      .ok (acc + (rolls.map (fun x => max 1 (x + con_modifier))).sum) := by
  intro rolls
  induction rolls with
  | nil =>
      intro acc
      simp [Pure.pure, Except.pure]
  | cons x xs ih =>
      intro acc
      have hstep : rollDice 1 hit_die con_modifier 0 0 [x] =
          .ok { dice_count := 1, dice_size := hit_die, modifier := con_modifier
                individual_rolls := [x], total := x + con_modifier
                description := mkDescription 1 hit_die con_modifier 0 0 } := by
        simp [rollDice, keptRolls, hhd]
      rw [List.foldlM_cons, hstep]
      simp only [Bind.bind, Except.bind, Pure.pure, Except.pure] at ih ⊢
      rw [ih (acc + max 1 (x + con_modifier))]
      simp [add_assoc]

/-- Claim C6: the ability-modifier function returns the mathematical floor of
(score - 10) / 2, rounding toward negative infinity and not toward zero, both
in the calculation service and on the CharacterAbilities model; in particular
modifier 8 = -1, modifier 10 = 0, modifier 11 = 0 and modifier 20 = 5. -/
theorem C6_ability_modifier_is_floor (score : Int) :
    calculate_ability_modifier score = ⌊(((score : ℚ)) - 10) / 2⌋ ∧
    CharacterAbilities.modifier score = calculate_ability_modifier score ∧
    calculate_ability_modifier 8 = -1 ∧
    calculate_ability_modifier 10 = 0 ∧
    calculate_ability_modifier 11 = 0 ∧
    calculate_ability_modifier 20 = 5 := by
  refine ⟨?_, rfl, by decide, by decide, by decide, by decide⟩
  rw [calculate_ability_modifier, fdiv_eq_rat_floor (score - 10) 2 (by norm_num)]
  congr 1
  push_cast
  ring

/-- Claim C2: whatever proficiency-bonus value a caller has assigned to the
object, after Character.save() the stored proficiency_bonus equals
2 + floor((level - 1) / 4) for the current level of the character; the
caller-supplied value never survives the save. -/
theorem C2_save_overwrites_proficiency_bonus (c : Character) (pb : Int) :
    ({ c with proficiency_bonus := pb } : Character).save.proficiency_bonus =
      2 + ⌊(((c.level : ℚ)) - 1) / 4⌋ := by
  show 2 + Int.fdiv ((c.level : Int) - 1) 4 = 2 + ⌊(((c.level : ℚ)) - 1) / 4⌋
  rw [fdiv_eq_rat_floor ((c.level : Int) - 1) 4 (by norm_num)]
  congr 2
  push_cast
  ring

/-- Claim C3: calculate_max_hp returns 0 without a class or ability scores;
otherwise it returns max 1 X where X is hit_die + CON modifier at level 1 and
(hit_die + CON modifier) + (L - 1) * ((floor(hit_die / 2) + 1) + CON modifier)
at higher levels, plus a flat +L exactly when the species is the hard-coded
toughness species (name Dwarf). -/
theorem C3_max_hp_characterization (c : Character) :
    ((c.dnd_class_ref = none ∨ c.abilities = none) → calculate_max_hp c = 0) ∧
    (∀ cls ab, c.dnd_class_ref = some cls → c.abilities = some ab →
      calculate_max_hp c =
        max 1
          ((if c.level = 1 then
              (cls.hit_die : Int) + calculate_ability_modifier ab.constitution_score
            else
              ((cls.hit_die : Int) + calculate_ability_modifier ab.constitution_score)
                + ((c.level : Int) - 1) *
                  ((((cls.hit_die / 2 : ℕ) : Int) + 1)
                    + calculate_ability_modifier ab.constitution_score))
            + (if c.isDwarf then (c.level : Int) else 0))) := by
  constructor
  · intro h
    rcases hcd : c.dnd_class_ref with _ | cls <;> rcases hab : c.abilities with _ | ab <;>
      simp_all [calculate_max_hp]
  · intro cls ab hcls hab
    have hdiv : Int.fdiv (cls.hit_die : Int) 2 = ((cls.hit_die / 2 : ℕ) : Int) := by
      rw [Int.fdiv_eq_ediv _ (by norm_num)]
      omega
    by_cases hl : c.level = 1
    · have hl' : ((c.level : Int)) = 1 := by exact_mod_cast hl
      cases hd : c.isDwarf <;>
        simp [calculate_max_hp, hcls, hab, hl, hl', hd]
    · have hl' : ¬(((c.level : Int)) = 1) := by exact_mod_cast hl
      cases hd : c.isDwarf <;>
        simp [calculate_max_hp, hcls, hab, hl, hl', hd, hdiv]

/-- Claim C3 witness: hit_die 10 with CON modifier +2 yields 12 max HP at
level 1 and 44 at level 5, via the characterization theorem. -/
theorem C3_max_hp_witness :
    calculate_max_hp exCharC3L1 = 12 ∧ calculate_max_hp exCharC3L5 = 44 := by
  constructor
  · rw [(C3_max_hp_characterization exCharC3L1).2 exClassD10 exAbilC3 rfl rfl]
    decide
  · rw [(C3_max_hp_characterization exCharC3L5).2 exClassD10 exAbilC3 rfl rfl]
    decide

/-- Claim C1 amended theorem: when the class weapon-proficiency list contains
the literal weapon name but neither its category nor the wildcard all,
calculate_attack_bonus does NOT treat the character as proficient: the melee
and ranged bonuses are computed with a zero proficiency contribution (the
literal-name rule exists only in the validation service, not here). -/
theorem C1_attack_bonus_name_match_not_proficient
    (c : Character) (ab : CharacterAbilities) (cls : DnDClassData)
    (ce : CharacterEquipment) (w : WeaponData) (weapon_name : String)
    (hab : c.abilities = some ab) (hcls : c.dnd_class_ref = some cls)
    (hfind : c.equipment.find? (fun x => x.equipment.name == weapon_name) = some ce)
    (hw : ce.equipment.weapon = some w)
    (hname : weapon_name ∈ cls.weapon_proficiencies)
    (hcat : w.weapon_category ∉ cls.weapon_proficiencies)
    (hall : "all" ∉ cls.weapon_proficiencies) :
    calculate_attack_bonus c weapon_name =
      { melee := if ce.equipment.properties.contains "finesse" then
                   max (calculate_ability_modifier ab.strength_score)
                     (calculate_ability_modifier ab.dexterity_score)
                 else calculate_ability_modifier ab.strength_score,
        ranged := calculate_ability_modifier ab.dexterity_score
                   + (if c.feats.contains "Archery" then 2 else 0) } := by
  have hprof : ¬(w.weapon_category ∈ cls.weapon_proficiencies ∨
      "all" ∈ cls.weapon_proficiencies) := by
    rintro (h | h)
    exacts [hcat h, hall h]
  by_cases hfin : "finesse" ∈ ce.equipment.properties <;>
    by_cases hf : "Archery" ∈ c.feats <;>
      simp [calculate_attack_bonus, hab, hcls, hfind, hw, hprof, hfin, hf]

/-- Claim C1 counterexample: the weapon name Longsword is in the proficiency
list, its category martial is not, and all is not, yet calculate_attack_bonus
returns melee 0 and ranged 0 -- it does not include the proficiency bonus 2
that the claim says a name-only match would grant. -/
theorem C1_attack_bonus_counterexample :
    "Longsword" ∈ exClassC1.weapon_proficiencies ∧
    "martial" ∉ exClassC1.weapon_proficiencies ∧
    "all" ∉ exClassC1.weapon_proficiencies ∧
    calculate_proficiency_bonus (exCharC1.level : Int) = 2 ∧
    calculate_attack_bonus exCharC1 "Longsword" = { melee := 0, ranged := 0 } ∧
    ¬((calculate_attack_bonus exCharC1 "Longsword").melee =
        calculate_ability_modifier exAbilC1.strength_score +
          calculate_proficiency_bonus (exCharC1.level : Int)) := by
  decide

/-- Claim C1 witness for the amended theorem, instantiated at the concrete
Longsword character. -/
theorem C1_attack_bonus_witness :
    calculate_attack_bonus exCharC1 "Longsword" =
      { melee := calculate_ability_modifier exAbilC1.strength_score,
        ranged := calculate_ability_modifier exAbilC1.dexterity_score + 0 } := by
  rw [C1_attack_bonus_name_match_not_proficient exCharC1 exAbilC1 exClassC1
      { equipment := exLongsword, quantity := 1, equipped := true }
      { weapon_category := "martial" } "Longsword"
      rfl rfl rfl rfl (by decide) (by decide) (by decide)]
  decide

/-- Claim C4 amended theorem: AC is 10 with no ability scores; otherwise
10 + DEX modifier unarmored, or the base AC of the first equipped armor item with
full DEX for light armor, DEX capped for medium armor, and no DEX for any
other armor type; the medium-armor cap is the configured dex_bonus_limit
except that BOTH an unset limit AND a limit of 0 yield cap 2 (Python
truthiness of armor.dex_bonus_limit or 2); +2 whenever any equipped item name
contains shield case-insensitively. -/
theorem C4_armor_class_characterization :
    (∀ c : Character, c.abilities = none → calculate_armor_class c = 10) ∧
    (∀ (c : Character) (ab : CharacterAbilities), c.abilities = some ab →
      ((c.equipment.find? (fun ce => ce.equipped && ce.equipment.armor.isSome) = none →
          calculate_armor_class c =
            10 + calculate_ability_modifier ab.dexterity_score +
              (if c.equipment.any (fun ce => ce.equipped && icontains "shield" ce.equipment.name)
               then 2 else 0)) ∧
       (∀ (ce : CharacterEquipment) (armor : ArmorData),
          c.equipment.find? (fun ce => ce.equipped && ce.equipment.armor.isSome) = some ce →
          ce.equipment.armor = some armor →
          calculate_armor_class c =
            (armor.base_ac : Int) +
              (if armor.armor_type = "light" then
                 calculate_ability_modifier ab.dexterity_score
               else if armor.armor_type = "medium" then
                 min (calculate_ability_modifier ab.dexterity_score)
                   ((match armor.dex_bonus_limit with
                     | none => 2
                     | some 0 => 2
                     | some (n + 1) => (n + 1 : Nat) : Nat) : Int)
               else 0) +
              (if c.equipment.any (fun ce => ce.equipped && icontains "shield" ce.equipment.name)
               then 2 else 0)))) := by
  constructor
  · intro c h
    simp [calculate_armor_class, h]
  · intro c ab hab
    constructor
    · intro hfind
      simp only [calculate_armor_class, hab, hfind]
      cases hs : c.equipment.any (fun ce => ce.equipped && icontains "shield" ce.equipment.name) <;>
        simp [hs]
    · intro ce armor hfind harm
      have hcap : ((pyOrNat armor.dex_bonus_limit 2 : Nat) : Int) =
          ((match armor.dex_bonus_limit with
            | none => 2
            | some 0 => 2
            | some (n + 1) => (n + 1 : Nat) : Nat) : Int) := by
        rcases armor.dex_bonus_limit with _ | (_ | n) <;> rfl
      simp only [calculate_armor_class, hab, hfind, harm, hcap]
      cases hs : c.equipment.any (fun ce => ce.equipped && icontains "shield" ce.equipment.name) <;>
        by_cases hlight : armor.armor_type = "light" <;>
          by_cases hmed : armor.armor_type = "medium" <;>
            simp [hlight, hmed, hs]

/-- Claim C4 counterexample: with medium armor whose dex-bonus limit is SET to
0 and DEX modifier +3, the code returns base 14 + min(3, 2) = 16, not the
14 + min(3, 0) = 14 that the claim (default 2 only when unset) predicts. -/
theorem C4_armor_class_counterexample :
    exArmorC4.dex_bonus_limit = some 0 ∧
    calculate_armor_class exCharC4 = 16 ∧
    calculate_armor_class exCharC4 ≠
      (exArmorC4.base_ac : Int) +
        min (calculate_ability_modifier exAbilC4.dexterity_score) 0 := by
  decide

/-- Claim C4 witness: the amended theorem instantiated at the light-armor,
DEX +3, shield-bearing character gives AC 11 + 3 + 2 = 16. -/
theorem C4_armor_class_witness : calculate_armor_class exCharC4w = 16 := by
  rw [(C4_armor_class_characterization.2 exCharC4w exAbilC4 rfl).2
      { equipment := { name := "Leather Armor", weight := 10, properties := []
                       weapon := none, armor := some exArmorC4w }
        quantity := 1, equipped := true }
      exArmorC4w rfl rfl]
  decide

/-- Claim C5: for a character with ability scores, the encumbrance status is
normal exactly when total weight is at most (STR * 15) / 3 (equality is still
normal), encumbered when above that but at most (STR * 15) * 2 / 3,
heavily_encumbered when above that but at most STR * 15, and overloaded
exactly when weight strictly exceeds STR * 15. -/
theorem C5_encumbrance_status (c : Character) (ab : CharacterAbilities)
    (hab : c.abilities = some ab) :
    (get_encumbrance_status c = "normal" ↔
      calculate_current_encumbrance c ≤ ((ab.strength_score : ℚ) * 15) / 3) ∧
    (get_encumbrance_status c = "encumbered" ↔
      (((ab.strength_score : ℚ) * 15) / 3 < calculate_current_encumbrance c ∧
        calculate_current_encumbrance c ≤ ((ab.strength_score : ℚ) * 15) * 2 / 3)) ∧
    (get_encumbrance_status c = "heavily_encumbered" ↔
      (((ab.strength_score : ℚ) * 15) * 2 / 3 < calculate_current_encumbrance c ∧
        calculate_current_encumbrance c ≤ (ab.strength_score : ℚ) * 15)) ∧
    (get_encumbrance_status c = "overloaded" ↔
      (ab.strength_score : ℚ) * 15 < calculate_current_encumbrance c) := by
  have hc0 : (0 : ℚ) ≤ (ab.strength_score : ℚ) * 15 := by positivity
  simp only [get_encumbrance_status, calculate_carrying_capacity, hab]
  split_ifs with h1 h2 h3 <;>
    refine ⟨?_, ?_, ?_, ?_⟩ <;>
      (constructor <;> intro h) <;>
        first
          | rfl
          | linarith
          | (constructor <;> linarith)
          | (exact absurd h (by decide))
          | (exfalso; rcases h with ⟨ha, hb⟩; linarith)
          | (exfalso; linarith)

/-- Claim C5 witness: a weight exactly at the encumbered threshold is still
normal, via the characterization theorem at the concrete character. -/
theorem C5_encumbrance_witness : get_encumbrance_status exCharC5 = "normal" := by
  refine ((C5_encumbrance_status exCharC5 exAbilC5 rfl).1).mpr ?_
  show calculate_current_encumbrance exCharC5 ≤ ((exAbilC5.strength_score : ℚ) * 15) / 3
  norm_num [calculate_current_encumbrance, exCharC5, exAbilC5]

/-- Claim C7: roll_dice raises ValueError exactly when count < 1, sides < 1 or
drop_lowest + drop_highest >= count; the error does not depend on any rolled
die (no dice are consumed), and every other input yields a normal result. -/
theorem C7_roll_dice_validation (count sides modifier drop_lowest drop_highest : Int)
    (rolls : List Int) :
    ((∃ e, rollDice count sides modifier drop_lowest drop_highest rolls = .error e) ↔
      (count < 1 ∨ sides < 1 ∨ drop_lowest + drop_highest ≥ count)) ∧
    (¬(count < 1 ∨ sides < 1 ∨ drop_lowest + drop_highest ≥ count) →
      ∃ r, rollDice count sides modifier drop_lowest drop_highest rolls = .ok r) ∧
    ((count < 1 ∨ sides < 1 ∨ drop_lowest + drop_highest ≥ count) →
      ∀ rolls', rollDice count sides modifier drop_lowest drop_highest rolls =
        rollDice count sides modifier drop_lowest drop_highest rolls') := by
  by_cases h1 : count < 1 <;> by_cases h2 : sides < 1 <;>
    by_cases h3 : drop_lowest + drop_highest ≥ count <;>
      simp [rollDice, h1, h2, h3]

/-- Claim C7 witness: count 0 raises, and a valid 4d6-drop-lowest call
returns a result, via the validation theorem. -/
theorem C7_roll_dice_witness :
    (∃ e, rollDice 0 6 0 0 0 [] = Except.error e) ∧
    (∃ r, rollDice 4 6 0 1 0 [1, 2, 3, 4] = Except.ok r) :=
  ⟨(C7_roll_dice_validation 0 6 0 0 0 []).1.mpr (Or.inl (by decide)),
   (C7_roll_dice_validation 4 6 0 1 0 [1, 2, 3, 4]).2.1 (by decide)⟩

/-- Claim C8: a successful roll_dice keeps the full pre-drop roll sequence in
individual_rolls (count dice, each in range, in roll order), and its total is
the sum of the values left after removing the drop_lowest smallest values and
then the drop_highest largest values of the remainder, plus the modifier
(stated as a three-way partition of the rolls into the dropped-low multiset,
the kept multiset and the dropped-high multiset); consequently
roll_ability_score always keeps 4 individual rolls and totals in [3, 18]. -/
theorem C8_roll_dice_result :
    (∀ (count sides modifier drop_lowest drop_highest : Int)
        (rolls : List Int) (r : DiceRoll),
      0 ≤ drop_lowest → 0 ≤ drop_highest →
      rolls.length = count.toNat →
      (∀ x ∈ rolls, 1 ≤ x ∧ x ≤ sides) →
      rollDice count sides modifier drop_lowest drop_highest rolls = .ok r →
      (r.individual_rolls = rolls ∧
       r.individual_rolls.length = count.toNat ∧
       (∀ x ∈ r.individual_rolls, 1 ≤ x ∧ x ≤ sides) ∧
       ∃ low kept high : List Int,
         rolls.Perm (low ++ kept ++ high) ∧
         low.length = drop_lowest.toNat ∧
         high.length = drop_highest.toNat ∧
         (∀ a ∈ low, ∀ b ∈ kept ++ high, a ≤ b) ∧
         (∀ b ∈ kept, ∀ cc ∈ high, b ≤ cc) ∧
         r.total = kept.sum + modifier)) ∧
    (∀ rolls : List Int, rolls.length = 4 → (∀ x ∈ rolls, 1 ≤ x ∧ x ≤ 6) →
      ∃ r, roll_ability_score rolls = .ok r ∧
        r.individual_rolls.length = 4 ∧ 3 ≤ r.total ∧ r.total ≤ 18) := by
  constructor
  · intro count sides modifier drop_lowest drop_highest rolls r hdl hdh hlen hrange hok
    by_cases h1 : count < 1
    · simp [rollDice, h1] at hok
    by_cases h2 : sides < 1
    · simp [rollDice, h1, h2] at hok
    by_cases h3 : drop_lowest + drop_highest ≥ count
    · simp [rollDice, h1, h2, h3] at hok
    simp only [rollDice, if_neg h1, if_neg h2, if_neg h3] at hok
    rw [Except.ok.injEq] at hok
    subst hok
    refine ⟨rfl, hlen, hrange, ?_⟩
    by_cases hdl0 : drop_lowest > 0 <;> by_cases hdh0 : drop_highest > 0
    · -- drop both: low from the ascending sort, high from the descending sort
      refine ⟨(pySortAsc rolls).take drop_lowest.toNat,
        (pySortDesc ((pySortAsc rolls).drop drop_lowest.toNat)).drop drop_highest.toNat,
        (pySortDesc ((pySortAsc rolls).drop drop_lowest.toNat)).take drop_highest.toNat,
        ?_, ?_, ?_, ?_, ?_, ?_⟩
      · have hp1 : rolls.Perm ((pySortAsc rolls).take drop_lowest.toNat ++
            (pySortAsc rolls).drop drop_lowest.toNat) := by
          rw [List.take_append_drop]
          exact sortAsc_perm rolls
        have hsplit : ((pySortDesc ((pySortAsc rolls).drop drop_lowest.toNat)).take drop_highest.toNat ++
            (pySortDesc ((pySortAsc rolls).drop drop_lowest.toNat)).drop drop_highest.toNat).Perm
            ((pySortDesc ((pySortAsc rolls).drop drop_lowest.toNat)).drop drop_highest.toNat ++
             (pySortDesc ((pySortAsc rolls).drop drop_lowest.toNat)).take drop_highest.toNat) :=
          List.perm_append_comm
        rw [List.take_append_drop] at hsplit
        have hp2 := (sortDesc_perm ((pySortAsc rolls).drop drop_lowest.toNat)).trans hsplit
        rw [List.append_assoc]
        exact hp1.trans (hp2.append_left _)
      · rw [List.length_take, sortAsc_length, hlen]
        omega
      · rw [List.length_take, sortDesc_length, List.length_drop, sortAsc_length, hlen]
        omega
      · intro a ha b hb
        refine sortAsc_take_le_drop rolls drop_lowest.toNat a ha b ?_
        have hmem : b ∈ pySortDesc ((pySortAsc rolls).drop drop_lowest.toNat) := by
          rcases List.mem_append.mp hb with h | h
          · exact List.mem_of_mem_drop h
          · exact List.mem_of_mem_take h
        exact ((sortDesc_perm _).mem_iff).mpr hmem
      · exact sortDesc_drop_le_take _ _
      · simp [keptRolls, hdl0, hdh0]
    · -- drop lowest only
      refine ⟨(pySortAsc rolls).take drop_lowest.toNat,
        (pySortAsc rolls).drop drop_lowest.toNat, [], ?_, ?_, ?_, ?_, ?_, ?_⟩
      · rw [List.append_nil, List.take_append_drop]
        exact sortAsc_perm rolls
      · rw [List.length_take, sortAsc_length, hlen]
        omega
      · simp
        omega
      · intro a ha b hb
        rw [List.append_nil] at hb
        exact sortAsc_take_le_drop rolls drop_lowest.toNat a ha b hb
      · simp
      · simp [keptRolls, hdl0, hdh0]
    · -- drop highest only
      refine ⟨[], (pySortDesc rolls).drop drop_highest.toNat,
        (pySortDesc rolls).take drop_highest.toNat, ?_, ?_, ?_, ?_, ?_, ?_⟩
      · rw [List.nil_append]
        have hsplit : ((pySortDesc rolls).take drop_highest.toNat ++
            (pySortDesc rolls).drop drop_highest.toNat).Perm
            ((pySortDesc rolls).drop drop_highest.toNat ++
             (pySortDesc rolls).take drop_highest.toNat) :=
          List.perm_append_comm
        rw [List.take_append_drop] at hsplit
        exact (sortDesc_perm rolls).trans hsplit
      · simp
        omega
      · rw [List.length_take, sortDesc_length, hlen]
        omega
      · simp
      · exact sortDesc_drop_le_take _ _
      · simp [keptRolls, hdl0, hdh0]
    · -- no drops
      refine ⟨[], rolls, [], ?_, ?_, ?_, ?_, ?_, ?_⟩
      · simp
      · simp
        omega
      · simp
        omega
      · simp
      · simp
      · simp [keptRolls, hdl0, hdh0]
  · intro rolls hlen hrange
    have hok : roll_ability_score rolls =
        .ok { dice_count := 4, dice_size := 6, modifier := 0
              individual_rolls := rolls
              total := (keptRolls 1 0 rolls).sum + 0
              description := mkDescription 4 6 0 1 0 } := by
      simp [roll_ability_score, rollDice]
    have hkept : keptRolls 1 0 rolls = (pySortAsc rolls).drop 1 := by
      simp [keptRolls]
    rw [hkept] at hok
    refine ⟨_, hok, hlen, ?_, ?_⟩
    all_goals
      have hklen : ((pySortAsc rolls).drop 1).length = 3 := by
        rw [List.length_drop, sortAsc_length, hlen]
      have hkmem : ∀ x ∈ (pySortAsc rolls).drop 1, 1 ≤ x ∧ x ≤ 6 := by
        intro x hx
        exact hrange x (((sortAsc_perm rolls).mem_iff).mpr (List.mem_of_mem_drop hx))
    · have hlow : ((pySortAsc rolls).drop 1).length • (1 : Int) ≤
          ((pySortAsc rolls).drop 1).sum :=
        List.card_nsmul_le_sum _ _ (fun x hx => (hkmem x hx).1)
      rw [hklen] at hlow
      simpa using hlow
    · have hhigh : ((pySortAsc rolls).drop 1).sum ≤
          ((pySortAsc rolls).drop 1).length • (6 : Int) :=
        List.sum_le_card_nsmul _ _ (fun x hx => (hkmem x hx).2)
      rw [hklen] at hhigh
      simpa using hhigh

/-- Claim C8 witness: the concrete 4d6-drop-lowest roll [3, 1, 4, 6] keeps 4
individual rolls and totals within [3, 18], via the main theorem. -/
theorem C8_roll_dice_witness :
    ∃ r, roll_ability_score [3, 1, 4, 6] = .ok r ∧
      r.individual_rolls.length = 4 ∧ 3 ≤ r.total ∧ r.total ≤ 18 :=
  C8_roll_dice_result.2 [3, 1, 4, 6] (by decide) (by decide)

/-- Claim C9: with in-range oracle dice, roll_with_advantage returns
max(roll1, roll2) + modifier in advantage mode, min(roll1, roll2) + modifier
in disadvantage mode, and in normal mode duplicates the single rolled die into
both slots (the second oracle die is never consumed) and returns
roll1 + modifier. -/
theorem C9_roll_with_advantage (sides modifier die1 die2 : Int)
    (h1 : 1 ≤ die1 ∧ die1 ≤ sides) (h2 : 1 ≤ die2 ∧ die2 ≤ sides) :
    (∃ a, roll_with_advantage sides modifier "advantage" die1 die2 = .ok a ∧
      a.roll1 = die1 ∧ a.roll2 = die2 ∧
      1 ≤ a.roll1 ∧ a.roll1 ≤ sides ∧ 1 ≤ a.roll2 ∧ a.roll2 ≤ sides ∧
      a.result = max a.roll1 a.roll2 + modifier) ∧
    (∃ a, roll_with_advantage sides modifier "disadvantage" die1 die2 = .ok a ∧
      a.roll1 = die1 ∧ a.roll2 = die2 ∧
      a.result = min a.roll1 a.roll2 + modifier) ∧
    (∃ a, roll_with_advantage sides modifier "normal" die1 die2 = .ok a ∧
      a.roll1 = die1 ∧ a.roll2 = a.roll1 ∧ a.result = a.roll1 + modifier) ∧
    (∀ d2 d2', roll_with_advantage sides modifier "normal" die1 d2 =
      roll_with_advantage sides modifier "normal" die1 d2') := by
  have hs : ¬sides < 1 := by omega
  refine ⟨?_, ?_, ?_, ?_⟩ <;>
    simp [roll_with_advantage, roll_die, hs, Bind.bind, Except.bind,
      Pure.pure, Except.pure, h1, h2]

/-- Claim C9 witness: a concrete 1d20+3 advantage roll with oracle dice 7 and
15 yields result 18, via the main theorem. -/
theorem C9_roll_with_advantage_witness :
    ∃ a, roll_with_advantage 20 3 "advantage" 7 15 = .ok a ∧ a.result = 18 := by
  obtain ⟨a, hok, hr1, hr2, -, -, -, -, hres⟩ :=
    (C9_roll_with_advantage 20 3 7 15 (by decide) (by decide)).1
  refine ⟨a, hok, ?_⟩
  rw [hres, hr1, hr2]
  decide

/-- Claim C10: roll_hit_points at level 1 returns exactly hit_die +
con_modifier with no minimum-1 floor (so the result is nonpositive whenever
con_modifier <= -hit_die), while for level > 1 each of the level - 1
additional levels contributes max(1, die roll + con_modifier), each
contribution being at least 1. -/
theorem C10_roll_hit_points (hit_die con_modifier level : Int) (rolls : List Int) :
    (roll_hit_points hit_die con_modifier 1 rolls = .ok (hit_die + con_modifier)) ∧
    (con_modifier ≤ -hit_die → hit_die + con_modifier ≤ 0 ∧
      roll_hit_points hit_die con_modifier 1 rolls = .ok (hit_die + con_modifier)) ∧
    (level > 1 → hit_die ≥ 1 → rolls.length = (level - 1).toNat →
      roll_hit_points hit_die con_modifier level rolls =
        .ok ((hit_die + con_modifier) +
          (rolls.map (fun x => max 1 (x + con_modifier))).sum) ∧
      ∀ x : Int, 1 ≤ max 1 (x + con_modifier)) := by
  refine ⟨by simp [roll_hit_points],
    fun h => ⟨by omega, by simp [roll_hit_points]⟩,
    fun hl hhd hlen => ⟨?_, fun x => le_max_left 1 _⟩⟩
  have hne : ¬(level = 1) := by omega
  simp only [roll_hit_points, if_neg hne]
  exact roll_hit_points_fold hit_die con_modifier (by omega) rolls (hit_die + con_modifier)

/-- Claim C10 witness: d10 with CON +2 at level 3 and oracle rolls [4, 1]
gives 12 + 6 + 3 = 21, and d10 with CON -10 at level 1 gives the unclamped
total 0, via the main theorem. -/
theorem C10_roll_hit_points_witness :
    roll_hit_points 10 2 3 [4, 1] = .ok 21 ∧
    roll_hit_points 10 (-10) 1 [] = .ok 0 := by
  constructor
  · rw [((C10_roll_hit_points 10 2 3 [4, 1]).2.2 (by decide) (by decide) (by decide)).1]
    rfl
  · rw [((C10_roll_hit_points 10 (-10) 1 []).2.1 (by decide)).2]
    rfl
